import Mathlib

/-!
A verification development for the dependabot issue-reconciliation scripts.

The Python sources are shallowly embedded: each Lean definition mirrors one
Python function (same name where possible), with Python strings as `String`,
Python sets of vulnerability ids as `Finset String`, CSV rows as association
lists, and the GitHub API calls recorded as an explicit `Mutation` list.

Python string primitives (`in`, `split`, `strip`, `lower`, `upper`, `title`,
`startswith`, slicing) are modelled by structurally recursive functions over
the character list, so every concrete claim instance evaluates by kernel
reduction.
-/

/-! ### Python string primitives -/

/-- Is the needle a prefix of the haystack (character lists)? -/
def charIsPrefix : List Char → List Char → Bool
  | [], _ => true
  | _ :: _, [] => false
  | n :: ns, h :: hs => n == h && charIsPrefix ns hs

/-- Does the needle occur anywhere in the haystack (character lists)? -/
def charContainsSub (needle : List Char) : List Char → Bool
  | [] => needle.isEmpty
  | h :: hs => charIsPrefix needle (h :: hs) || charContainsSub needle hs

/-- The Python substring test `needle in hay` (for string operands). -/
def pyContains (hay needle : String) : Bool :=
  charContainsSub needle.data hay.data

/-- Splitting a character list on a single separator character, keeping
empty pieces, as the Python `str.split(sep)` does for a one-character `sep`. -/
def splitCharGo (sep : Char) : List Char → List Char → List (List Char)
  | [], acc => [acc.reverse]
  | c :: rest, acc =>
    if c == sep then acc.reverse :: splitCharGo sep rest []
    else splitCharGo sep rest (c :: acc)

/-- The Python `s.split(sep)` for a one-character separator (the only kind the
sources use: `'\n'` and `'|'`). -/
def pySplit (s : String) (sep : Char) : List String :=
  (splitCharGo sep s.data []).map String.mk

/-- The Python `str.strip()` (whitespace at both ends). -/
def pyStrip (s : String) : String :=
  String.mk (((s.data.dropWhile Char.isWhitespace).reverse.dropWhile Char.isWhitespace).reverse)

/-- The Python `str.lower()` (ASCII behaviour, all the sources need). -/
def pyLower (s : String) : String := String.mk (s.data.map Char.toLower)

/-- The Python `str.upper()` (ASCII behaviour). -/
def pyUpper (s : String) : String := String.mk (s.data.map Char.toUpper)

/-- The Python `s.startswith(needle)`. -/
def pyStartsWith (s needle : String) : Bool := charIsPrefix needle.data s.data

/-- The Python `len(s)`. -/
def pyLen (s : String) : Nat := s.data.length

/-- The Python slice `s[:n]`. -/
def pySlice (s : String) (n : Nat) : String := String.mk (s.data.take n)

/-- The Python two-digit zero-padded formatting of a non-negative count. -/
def pad2 (n : Nat) : String :=
  if n < 10 then "0" ++ toString n else toString n

/-- One step of the Python `str.title()` over the character list: a cased letter
is uppercased when the previous character was not alphabetic, lowercased
otherwise. -/
def pyTitleGo : List Char → Bool → List Char
  | [], _ => []
  | c :: rest, prevAlpha =>
    (if prevAlpha then c.toLower else c.toUpper) :: pyTitleGo rest c.isAlpha

/-- The Python `str.title()` (ASCII behaviour). -/
def pyTitle (s : String) : String :=
  String.mk (pyTitleGo s.data false)

/-- A CSV row as produced by `csv.DictReader`: an association list from
header name to cell text. -/
abbrev Row : Type := List (String × String)

/-- The Python `row.get(key, "")` read on a `DictReader` row. -/
def row_get (row : Row) (key : String) : String :=
  (List.lookup key row).getD ""

/-! ### Shared issue/mutation model

A GitHub issue as the scripts see it, and the mutating API calls a run
performs, recorded as data so that dry-run behaviour is provable. -/

structure Issue where
  number : Nat
  title : String
  body : String
deriving DecidableEq, Repr

inductive Mutation where
  /-- `issue.create_comment(text)` -/
  | createComment (issueNumber : Nat) (text : String)
  /-- `issue.edit(state=newState)` -/
  | editState (issueNumber : Nat) (newState : String)
  /-- `issue.edit(title=..., body=...)`; the title slot is `Option` because
  the title expression can evaluate to Python `None`. -/
  | editIssue (issueNumber : Nat) (title : Option String) (body : String)
  /-- the GraphQL project-status update attempt for an issue -/
  | projectFieldUpdate (issueNumber : Nat)
  /-- `repo.create_issue(title=..., body=...)` -/
  | createIssue (title : Option String) (body : String)
deriving DecidableEq, Repr

namespace CloseFixedIssues

/-! ## Embedding of `close_fixed_issues.py` -/

/-- Field reads of `IssueCloser.get_current_vulnerabilities`:
`row.get("Repository", "").strip()`. -/
def csvRepo (row : Row) : String := pyStrip (row_get row "Repository")

/-- Embeds `row.get("Package", "").strip()`. -/
def csvPackage (row : Row) : String := pyStrip (row_get row "Package")

/-- Embeds `row.get("Severity", "").strip()`. -/
def csvSeverity (row : Row) : String := pyStrip (row_get row "Severity")

/-- Embeds `row.get("Status", "").strip().lower()`. -/
def csvStatus (row : Row) : String := pyLower (pyStrip (row_get row "Status"))

/-- The guard `status == "open" and repo_name and package` of
`get_current_vulnerabilities`. -/
def rowTracked (row : Row) : Bool :=
  csvStatus row == "open" && csvRepo row != "" && csvPackage row != ""

/-- `vuln_id = f"{package}|{severity}"` for a CSV row. -/
def vuln_id (row : Row) : String :=
  csvPackage row ++ "|" ++ csvSeverity row

/-- `IssueCloser.get_current_vulnerabilities`, read at one repository key:
the set of `package|severity` ids contributed by open rows of that
repository (`current_vulns.get(repo_name, set())` in the callers). -/
def get_current_vulnerabilities (rows : List Row) (repo_name : String) : Finset String :=
  ((rows.filter (fun row => rowTracked row && csvRepo row == repo_name)).map vuln_id).toFinset

/-- The line scanner of `IssueCloser.extract_vulnerability_ids_from_issue`:
state `in_table`, accumulating the extracted id set. -/
def extractGo : List String → Bool → Finset String → Finset String
  | [], _, acc => acc
  | line :: rest, in_table, acc =>
    if pyContains line "|" && (pyContains line "Package" || pyContains line "package") then
      extractGo rest true acc
    else if in_table && pyContains line "|" then
      let parts := (pySplit line '|').map pyStrip
      if parts.length ≥ 4 then
        let package := parts.getD 1 ""
        let severity := parts.getD 3 ""
        if package != "" && severity != "" &&
            !(["Package", "package", "-", "--"].contains package) then
          extractGo rest in_table (insert (package ++ "|" ++ severity) acc)
        else
          extractGo rest in_table acc
      else
        extractGo rest in_table acc
    else
      extractGo rest in_table acc

/-- `IssueCloser.extract_vulnerability_ids_from_issue`. -/
def extract_vulnerability_ids_from_issue (issue_body : String) : Finset String :=
  extractGo (pySplit issue_body '\n') false ∅

/-- The per-issue decision taken by the loop body of
`IssueCloser.close_fixed_issues`. -/
inductive CloseDecision where
  | skippedUnparsed
  | closed (fixedCount : Nat)
  | skippedStillOpen (stillOpenCount : Nat)
deriving DecidableEq, Repr

/-- The closing comment posted before `issue.edit(state="closed")`, as a
function of the fixed-count and of `datetime.now()` rendered as text. -/
def closing_comment (fixedCount : Nat) (timestamp : String) : String :=
  "🎉 **All vulnerabilities mentioned in this issue have been resolved!**\n\n✅ " ++
    (("Fixed vulnerabilities: " ++ toString fixedCount) ++
      ("\n📅 Verified on: " ++
        (timestamp ++
          "\n\nThis issue is being automatically closed as all security vulnerabilities have been addressed. If you believe this was closed in error, please reopen it.")))

/-- The decision logic of one iteration of the `for issue in open_issues`
loop in `IssueCloser.close_fixed_issues`. -/
def close_decide (current_vulns : Finset String) (issue : Issue) : CloseDecision :=
  let issue_vulns := extract_vulnerability_ids_from_issue issue.body
  if issue_vulns = ∅ then
    .skippedUnparsed
  else
    let still_open := issue_vulns ∩ current_vulns
    if still_open = ∅ then .closed issue_vulns.card
    else .skippedStillOpen still_open.card

/-- The mutating API calls one loop iteration performs: none when `dry_run`,
and the comment followed by the state edit when an issue is closed. -/
def close_mutations (dry_run : Bool) (timestamp : String) (issue : Issue) :
    CloseDecision → List Mutation
  | .closed n =>
    if dry_run then []
    else
      [.createComment issue.number (closing_comment n timestamp),
       .editState issue.number "closed"]
  | _ => []

/-- Statistics counters of `IssueCloser` touched by the loop. -/
structure CloseStats where
  issues_closed : Nat
  issues_skipped : Nat
deriving DecidableEq, Repr

/-- The counter increments of one loop iteration (identical in dry-run and
live mode: `issues_closed` is incremented outside the `dry_run` branch). -/
def closeStatsDelta : CloseDecision → CloseStats
  | .skippedUnparsed => ⟨0, 1⟩
  | .closed _ => ⟨1, 0⟩
  | .skippedStillOpen _ => ⟨0, 1⟩

def closeStatsAdd (a b : CloseStats) : CloseStats :=
  ⟨a.issues_closed + b.issues_closed, a.issues_skipped + b.issues_skipped⟩

/-- The `for issue in open_issues` loop of `IssueCloser.close_fixed_issues`:
final statistics and the list of mutating API calls, in order. -/
def close_run (dry_run : Bool) (timestamp : String) (current_vulns : Finset String) :
    List Issue → CloseStats × List Mutation
  | [] => (⟨0, 0⟩, [])
  | issue :: rest =>
    let d := close_decide current_vulns issue
    let tail := close_run dry_run timestamp current_vulns rest
    (closeStatsAdd (closeStatsDelta d) tail.1,
     close_mutations dry_run timestamp issue d ++ tail.2)

end CloseFixedIssues

namespace ReopenFixed

/-! ## Embedding of `reopen_fixed.py` -/

/-- Field reads of `get_current_vulnerabilities`:
`row.get("Repository Name", "").strip()`. -/
def csvRepo (row : Row) : String := pyStrip (row_get row "Repository Name")

/-- Embeds `row.get("Component", "").strip()`. -/
def csvPackage (row : Row) : String := pyStrip (row_get row "Component")

/-- Embeds `row.get("Severity", "").strip()`. -/
def csvSeverity (row : Row) : String := pyStrip (row_get row "Severity")

/-- Embeds `row.get("Status", "").strip().upper()`. -/
def csvStatus (row : Row) : String := pyUpper (pyStrip (row_get row "Status"))

/-- The guard `status == "OPEN" and repo_name and package`. -/
def rowTracked (row : Row) : Bool :=
  csvStatus row == "OPEN" && csvRepo row != "" && csvPackage row != ""

/-- `vuln_id = f"{package}|{severity}"` for a CSV row. -/
def vuln_id (row : Row) : String :=
  csvPackage row ++ "|" ++ csvSeverity row

/-- `get_current_vulnerabilities` of `reopen_fixed.py`, read at one
repository key. -/
def get_current_vulnerabilities (rows : List Row) (repo_name : String) : Finset String :=
  ((rows.filter (fun row => rowTracked row && csvRepo row == repo_name)).map vuln_id).toFinset

/-- The line scanner of `extract_vulnerability_ids_from_issue` in
`reopen_fixed.py`. A blank line while in table mode executes `break`,
returning the accumulated set. -/
def extractGo : List String → Bool → Finset String → Finset String
  | [], _, acc => acc
  | line :: rest, in_table, acc =>
    if pyContains line "| Package |" || pyContains line "| Component |" then
      extractGo rest true acc
    else if in_table && pyStartsWith (pyStrip line) "|---" then
      extractGo rest in_table acc
    else if in_table && pyStartsWith (pyStrip line) "|" then
      let parts := (pySplit line '|').map pyStrip
      if parts.length ≥ 3 then
        let package := parts.getD 1 ""
        let severity := parts.getD 2 ""
        if package == "" || ["package", "component", ""].contains (pyLower package) then
          extractGo rest in_table acc
        else
          extractGo rest in_table (insert (package ++ "|" ++ severity) acc)
      else
        extractGo rest in_table acc
    else if in_table && pyStrip line == "" then
      acc
    else
      extractGo rest in_table acc

/-- `extract_vulnerability_ids_from_issue` of `reopen_fixed.py`. -/
def extract_vulnerability_ids_from_issue (issue_body : String) : Finset String :=
  extractGo (pySplit issue_body '\n') false ∅

/-- The per-issue decision of the `for issue in issues` loop in `main`. -/
inductive ReopenDecision where
  | skippedNotAutomated
  | skippedUnparsed
  | reopened (stillOpenCount : Nat)
  | skippedResolved
deriving DecidableEq, Repr

/-- The reopening comment, as a function of `len(still_open)` and of
`datetime.now()` rendered as text (apostrophes written as `\x27`). -/
def reopen_comment (still_open_count : Nat) (timestamp : String) : String :=
  "## Issue Reopened - Automation Error\n\nThis issue was incorrectly closed due to a bug in the closure script.\n\n**Bug Details:**\nThe script was looking for wrong CSV column names (\x27Repository\x27/\x27Package\x27 instead of \x27Repository Name\x27/\x27Component\x27), causing it to never detect open vulnerabilities.\n\n**Current Status:**\n- **" ++
    ((toString still_open_count ++ " vulnerabilities are still open") ++
      ("**\n- The bug has been fixed\n- This issue will remain open until all vulnerabilities are resolved\n- Project status updated back to \"In Progress\"\n\n---\n*Reopened by reopen_fixed.py on " ++
        (timestamp ++ "*\n")))

/-- Decision logic of one iteration of the closed-issue loop in `main`:
skip non-automated titles, skip unparseable bodies, reopen when the claimed
set still intersects the current vulnerabilities. -/
def reopen_decide (current_vulns : Finset String) (issue : Issue) : ReopenDecision :=
  if !(pyContains (pyLower issue.title) "fix all dependabot issues") then
    .skippedNotAutomated
  else
    let issue_vulns := extract_vulnerability_ids_from_issue issue.body
    if issue_vulns = ∅ then
      .skippedUnparsed
    else
      let still_open := issue_vulns ∩ current_vulns
      if still_open ≠ ∅ then .reopened still_open.card
      else .skippedResolved

/-- The mutating API calls one loop iteration performs: none when
`dry_run`; otherwise reopen-edit, project-status attempt, then comment. -/
def reopen_mutations (dry_run : Bool) (timestamp : String) (issue : Issue) :
    ReopenDecision → List Mutation
  | .reopened k =>
    if dry_run then []
    else
      [.editState issue.number "open",
       .projectFieldUpdate issue.number,
       .createComment issue.number (reopen_comment k timestamp)]
  | _ => []

/-- The statistics dictionary of `main`. -/
structure ReopenStats where
  checked : Nat
  reopened : Nat
  skipped : Nat
  errors : Nat
  project_updated : Nat
deriving DecidableEq, Repr

/-- Counter increments of one loop iteration. `reopened` is incremented in
both dry-run and live mode; `project_updated` only in live mode when the
GraphQL update (modelled by the oracle) succeeds. -/
def reopenStatsDelta (dry_run : Bool) (oracle : Nat → Bool) (issue : Issue) :
    ReopenDecision → ReopenStats
  | .skippedNotAutomated => ⟨1, 0, 0, 0, 0⟩
  | .skippedUnparsed => ⟨1, 0, 0, 0, 0⟩
  | .reopened _ => ⟨1, 1, 0, 0, if !dry_run && oracle issue.number then 1 else 0⟩
  | .skippedResolved => ⟨1, 0, 1, 0, 0⟩

def reopenStatsAdd (a b : ReopenStats) : ReopenStats :=
  ⟨a.checked + b.checked, a.reopened + b.reopened, a.skipped + b.skipped,
   a.errors + b.errors, a.project_updated + b.project_updated⟩

/-- The closed-issue loop of `main` for one repository: final statistics
and the mutating API calls, in order. -/
def reopen_run (dry_run : Bool) (oracle : Nat → Bool) (timestamp : String)
    (current_vulns : Finset String) : List Issue → ReopenStats × List Mutation
  | [] => (⟨0, 0, 0, 0, 0⟩, [])
  | issue :: rest =>
    let d := reopen_decide current_vulns issue
    let tail := reopen_run dry_run oracle timestamp current_vulns rest
    (reopenStatsAdd (reopenStatsDelta dry_run oracle issue d) tail.1,
     reopen_mutations dry_run timestamp issue d ++ tail.2)

end ReopenFixed

namespace GitHubIssueManager

/-! ## Embedding of `github_issue_manager.py` -/

/-- The severity-count dictionary returned by
`analyze_repository_vulnerabilities`. -/
structure SeverityCounts where
  critical : Nat
  high : Nat
  medium : Nat
  low : Nat
  total : Nat
deriving DecidableEq, Repr

/-- One vulnerability record of the `vulnerability_data` DataFrame, with
the columns the manager reads. (`.get` defaults of the source apply only
when a column is absent; the embedding supplies every column, matching the
frames `load_vulnerability_data` produces plus a `cwe_id` cell that is the
default `"N/A"` when the source data has no such column.) -/
structure VulnRecord where
  repository : String
  package_name : String
  severity : String
  cvss_score : String
  advisory_summary : String
  alert_state : String
  cwe_id : String
deriving DecidableEq, Repr

/-- The DataFrame filter
`vulnerability_data[(repository == name) & (alert_state == "open")]`. -/
def repoOpenData (vulnerability_data : List VulnRecord) (repository_name : String) :
    List VulnRecord :=
  vulnerability_data.filter
    (fun v => v.repository == repository_name && v.alert_state == "open")

/-- `GitHubIssueManager.analyze_repository_vulnerabilities`: count the open
records of a repository by lowercased severity; severities outside the four
buckets are ignored, `total` is the bucket sum. -/
def analyze_repository_vulnerabilities (vulnerability_data : List VulnRecord)
    (repository_name : String) : SeverityCounts :=
  let repo_data := repoOpenData vulnerability_data repository_name
  let c := (repo_data.filter (fun v => pyLower v.severity == "critical")).length
  let h := (repo_data.filter (fun v => pyLower v.severity == "high")).length
  let m := (repo_data.filter (fun v => pyLower v.severity == "medium")).length
  let l := (repo_data.filter (fun v => pyLower v.severity == "low")).length
  ⟨c, h, m, l, c + h + m + l⟩

/-- The local variable `title` assembled inside
`GitHubIssueManager.format_issue_title` (lines 113–117). -/
def format_issue_title_local (repository_name : String) (severity_counts : SeverityCounts) :
    String :=
  let title := repository_name ++ " - Fix all dependabot issues "
  let title := title ++ "Critical - " ++ pad2 severity_counts.critical ++ ", "
  let title := title ++ "High - " ++ pad2 severity_counts.high ++ ", "
  let title := title ++ "Medium - " ++ pad2 severity_counts.medium ++ ", "
  let title := title ++ "Low - " ++ pad2 severity_counts.low
  title

/-- `GitHubIssueManager.format_issue_title`. The Python function assembles
the `title` local but has no `return` statement (the next `def` begins
immediately after line 117), so the call falls off the end of the function
body and evaluates to `None`. -/
def format_issue_title (repository_name : String) (severity_counts : SeverityCounts) :
    Option String :=
  let _title := format_issue_title_local repository_name severity_counts
  none

/-- The per-record block of the Critical & High section of
`format_issue_body`. -/
def criticalHighBlock (v : VulnRecord) : String :=
  "\n**" ++ pyUpper v.severity ++ "**: " ++ v.package_name ++
    "\n- **Advisory**: " ++ v.advisory_summary ++
    "\n- **CVSS Score**: " ++ v.cvss_score ++
    "\n- **CWE**: " ++ v.cwe_id ++ "\n"

/-- One markdown table row emitted by `format_issue_body`
(`| package | SEVERITY | cvss | advisory | Status |`), with the advisory
truncated to 50 characters plus an ellipsis. -/
def vulnTableRow (v : VulnRecord) : String :=
  let advisory :=
    if pyLen v.advisory_summary > 50 then pySlice v.advisory_summary 50 ++ "..."
    else v.advisory_summary
  "| " ++ v.package_name ++ " | " ++ pyUpper v.severity ++ " | " ++ v.cvss_score ++
    " | " ++ advisory ++ " | " ++ pyTitle v.alert_state ++ " |\n"

/-- `GitHubIssueManager.format_issue_body`: summary header, Critical & High
details, the vulnerabilities table (header `| Package | Severity | CVSS |
Advisory | Status |`), and the recommended-actions footer. -/
def format_issue_body (repository_name : String) (severity_counts : SeverityCounts)
    (vulnerability_data : List VulnRecord) : String :=
  let repo_data := repoOpenData vulnerability_data repository_name
  let critical_high :=
    repo_data.filter (fun v => ["CRITICAL", "HIGH"].contains (pyUpper v.severity))
  let body :=
    "# Security Vulnerability Report for " ++ repository_name ++
      "\n\n## 📊 Vulnerability Summary\n- **Total Open Vulnerabilities**: " ++
      toString severity_counts.total ++
      "\n- **Critical**: " ++ toString severity_counts.critical ++
      "\n- **High**: " ++ toString severity_counts.high ++
      "\n- **Medium**: " ++ toString severity_counts.medium ++
      "\n- **Low**: " ++ toString severity_counts.low ++
      "\n\n## 🚨 Priority Actions Required\n\n### Critical & High Priority Issues\n"
  let body := body ++
    (if critical_high.isEmpty then
      "\nNo critical or high severity vulnerabilities found.\n"
    else
      String.join (critical_high.map criticalHighBlock))
  let body := body ++
    "\n## 📋 All Vulnerabilities Details\n\n| Package | Severity | CVSS | Advisory | Status |\n|---------|----------|------|----------|--------|\n"
  let body := body ++ String.join (repo_data.map vulnTableRow)
  body ++
    "\n## 🔧 Recommended Actions\n\n1. **Immediate**: Address all Critical and High severity vulnerabilities\n2. **Short-term**: Update vulnerable packages to secure versions\n3. **Long-term**: Implement automated dependency scanning in CI/CD pipeline\n\n## 📅 Timeline\n- **Critical**: Fix within 24-48 hours\n- **High**: Fix within 1 week\n- **Medium**: Fix within 2 weeks\n- **Low**: Address during regular maintenance\n"

/-- A Python exception, as far as the embedding needs one. -/
inductive PyErr where
  | nameError (name : String)
deriving DecidableEq, Repr

/-- The names bound in the scope of `create_vulnerability_issue` when the
new-issue branch evaluates the arguments of `repo.create_issue` (the
function parameters plus the locals assigned on that path). `labels` is
not among them. -/
def new_issue_scope : List String :=
  ["self", "repository_name", "severity_counts", "vulnerability_data",
   "project_name", "existing_issue", "repo", "title", "body"]

/-- Python name resolution inside that scope: an unbound name raises
`NameError`. -/
def evalName (scope : List String) (name : String) : Except PyErr String :=
  if scope.contains name then .ok name else .error (.nameError name)

/-- The outcome of `create_vulnerability_issue`: its boolean return value,
the statistics increments, and the mutating API calls performed. -/
structure CreateResult where
  success : Bool
  issues_created : Nat
  issues_updated : Nat
  errors : Nat
  mutations : List Mutation
deriving DecidableEq, Repr

/-- `GitHubIssueManager.create_vulnerability_issue`. `existing_issue` is
the result of `check_existing_issue`. In the update branch the issue is
edited with the (None) title and new body. In the new-issue branch,
evaluating the `labels if labels else [...]` argument of
`repo.create_issue` looks up the unbound name `labels`, raising
`NameError`, which the `except Exception` handler converts into an error
count and a `False` return before any issue is created. -/
def create_vulnerability_issue (repository_name : String)
    (severity_counts : SeverityCounts) (vulnerability_data : List VulnRecord)
    (existing_issue : Option Issue) : CreateResult :=
  match existing_issue with
  | some issue =>
    let new_title := format_issue_title repository_name severity_counts
    let new_body := format_issue_body repository_name severity_counts vulnerability_data
    ⟨true, 0, 1, 0, [.editIssue issue.number new_title new_body]⟩
  | none =>
    let title := format_issue_title repository_name severity_counts
    let body := format_issue_body repository_name severity_counts vulnerability_data
    match evalName new_issue_scope "labels" with
    | .error _ => ⟨false, 0, 0, 1, []⟩
    | .ok _ => ⟨true, 1, 0, 0, [.createIssue title body]⟩

end GitHubIssueManager

namespace CreateSecurityIssues

/-! ## Embedding of `create_security_issues.py` -/

/-- An open issue as `check_existing_vulnerability_issue` sees it. -/
structure GHIssue where
  number : Nat
  title : String
  labels : List String
deriving DecidableEq, Repr

/-- The keyword list of the title predicate in
`check_existing_vulnerability_issue`. -/
def keywords : List String := ["dependabot", "fix all", "vulnerability", "security"]

/-- `repository_name in issue.title and any(keyword in issue.title.lower()
for keyword in [...])`. -/
def titleMatches (repository_name : String) (issue : GHIssue) : Bool :=
  pyContains issue.title repository_name &&
    keywords.any (fun k => pyContains (pyLower issue.title) k)

/-- `StandaloneIssueCreator.check_existing_vulnerability_issue`: the first
open issue carrying the `security-Vulnerability` label whose title matches
the repository-plus-keyword predicate. -/
def check_existing_vulnerability_issue (repository_name : String)
    (open_issues : List GHIssue) : Option GHIssue :=
  ((open_issues.filter (fun i => i.labels.contains "security-Vulnerability")).find?
    (titleMatches repository_name))

/-- The per-repository action of
`StandaloneIssueCreator.create_issues_for_repositories`. -/
inductive CreateDecision where
  | skippedExisting
  | skippedNoVulns
  | updated
  | created
deriving DecidableEq, Repr

/-- The control flow of one iteration of the repository loop in
`create_issues_for_repositories`: an existing issue without
`--force-update` is skipped before the severity analysis; otherwise a zero
total skips; otherwise update when forced onto an existing issue, else
create. -/
def create_decision (force_update : Bool) (repository_name : String)
    (open_issues : List GHIssue) (total : Nat) : CreateDecision :=
  match check_existing_vulnerability_issue repository_name open_issues with
  | some _ =>
    if !force_update then .skippedExisting
    else if total = 0 then .skippedNoVulns
    else .updated
  | none =>
    if total = 0 then .skippedNoVulns
    else .created

end CreateSecurityIssues

/-! ### Concrete instances used by claim witnesses and counterexamples -/

/-- Scenario B: an open tracking issue of repo `beta` whose body claims
`pkgX|HIGH` and `pkgY|LOW`. -/
def c1issue : Issue :=
  ⟨7, "beta - Fix all dependabot issues Critical - 00, High - 01, Medium - 00, Low - 01",
   "| Package | Version | Severity |\n| pkgX | 1.0 | HIGH |\n| pkgY | 2.0 | LOW |"⟩

/-- A single open HIGH finding of repo `repoA`. -/
def c2record : GitHubIssueManager.VulnRecord :=
  ⟨"repoA", "pkgA", "HIGH", "9.8", "Prototype pollution", "open", "CWE-1321"⟩

/-- The issue body `format_issue_body` renders for that finding. -/
def c2body : String :=
  GitHubIssueManager.format_issue_body "repoA" ⟨0, 1, 0, 0, 1⟩ [c2record]

/-- One open finding row under the `Repository Name`/`Component` header
convention. -/
def c3rowReopenHeaders : Row :=
  [("Repository Name", "alpha"), ("Component", "pkgA"), ("Severity", "HIGH"),
   ("Status", "Open")]

/-- The same finding row under the `Repository`/`Package` header
convention. -/
def c3rowCloseHeaders : Row :=
  [("Repository", "alpha"), ("Package", "pkgA"), ("Severity", "HIGH"),
   ("Status", "Open")]

/-- A tracking issue whose body has no vulnerability table at all. -/
def c4issue : Issue :=
  ⟨9, "delta - Fix all dependabot issues Critical - 00, High - 00, Medium - 00, Low - 00",
   "This issue has no vulnerability table."⟩

/-- Scenario C: a closed tracking issue of repo `gamma` claiming
`pkgZ|CRITICAL`. -/
def c5issue : Issue :=
  ⟨3, "gamma - Fix all dependabot issues Critical - 01, High - 00, Medium - 00, Low - 00",
   "| Package | Severity |\n|----------|--------|\n| pkgZ | CRITICAL |"⟩

/-- An open issue carrying the canonical label whose title contains the
repository name `alpha` but none of the recognised keywords. -/
def c7issueNoKeyword : CreateSecurityIssues.GHIssue :=
  ⟨5, "alpha misc", ["security-Vulnerability"]⟩

/-- An engine-generated tracking issue for repository `alpha`. -/
def c7issueTracking : CreateSecurityIssues.GHIssue :=
  ⟨4, "alpha - Fix all dependabot issues Critical - 01, High - 00, Medium - 00, Low - 00",
   ["security-Vulnerability"]⟩

/-- Two open finding rows that differ only in the letter case of the
package name. -/
def c9rowUpper : Row :=
  [("Repository", "repoA"), ("Package", "Lodash"), ("Severity", "HIGH"), ("Status", "open")]

def c9rowLower : Row :=
  [("Repository", "repoA"), ("Package", "lodash"), ("Severity", "HIGH"), ("Status", "open")]

/-! ### Helper lemmas -/

namespace CloseFixedIssues

lemma decide_closed_iff (c : Finset String) (i : Issue) (n : Nat) :
    close_decide c i = .closed n ↔
      (extract_vulnerability_ids_from_issue i.body ≠ ∅ ∧
       extract_vulnerability_ids_from_issue i.body ∩ c = ∅ ∧
       n = (extract_vulnerability_ids_from_issue i.body).card) := by
  simp only [close_decide]
  by_cases h1 : extract_vulnerability_ids_from_issue i.body = ∅
  · simp [h1]
  · by_cases h2 : extract_vulnerability_ids_from_issue i.body ∩ c = ∅
    · simp [h1, h2, eq_comm]
    · simp [h1, h2]

lemma run_mem (dry : Bool) (ts : String) (c : Finset String) (m : Mutation) :
    ∀ issues : List Issue,
      m ∈ (close_run dry ts c issues).2 ↔
        ∃ i, i ∈ issues ∧ m ∈ close_mutations dry ts i (close_decide c i)
  | [] => by simp [close_run]
  | a :: t => by
    simp only [close_run, List.mem_append, run_mem dry ts c m t, List.mem_cons]
    constructor
    · rintro (h | ⟨i, hi, hm⟩)
      · exact ⟨a, Or.inl rfl, h⟩
      · exact ⟨i, Or.inr hi, hm⟩
    · rintro ⟨i, (rfl | hi), hm⟩
      · exact Or.inl hm
      · exact Or.inr ⟨i, hi, hm⟩

lemma mutations_count_le (ts : String) (c : Finset String) (i : Issue) (num : Nat) :
    (close_mutations false ts i (close_decide c i)).countP
        (fun m => m == Mutation.editState num "closed")
      ≤ if i.number = num then 1 else 0 := by
  rcases close_decide c i with _ | n | k
  · simp [close_mutations]
  · by_cases h : i.number = num
    · subst h
      simp [close_mutations, List.countP_cons]
    · simp [close_mutations, List.countP_cons, h]
  · simp [close_mutations]

lemma run_count_le (ts : String) (c : Finset String) (num : Nat) :
    ∀ issues : List Issue,
      ((close_run false ts c issues).2.countP
          (fun m => m == Mutation.editState num "closed"))
        ≤ issues.countP (fun i => i.number == num)
  | [] => by simp [close_run]
  | a :: t => by
    have ha := mutations_count_le ts c a num
    have ht := run_count_le ts c num t
    simp only [close_run, List.countP_append, List.countP_cons, beq_iff_eq]
    by_cases h : a.number = num
    · rw [if_pos h]
      rw [if_pos h] at ha
      omega
    · rw [if_neg h]
      rw [if_neg h] at ha
      omega

lemma nodup_countP_le_one (num : Nat) :
    ∀ issues : List Issue,
      (issues.map Issue.number).Nodup → issues.countP (fun i => i.number == num) ≤ 1
  | [] => by simp
  | a :: t => by
    intro hnd
    simp only [List.map_cons, List.nodup_cons] at hnd
    obtain ⟨hna, hnd⟩ := hnd
    by_cases h : a.number = num
    · have ht : t.countP (fun i => i.number == num) = 0 := by
        rw [List.countP_eq_zero]
        intro b hb
        simp only [beq_iff_eq]
        intro hbn
        exact hna (h ▸ hbn ▸ List.mem_map_of_mem Issue.number hb)
      simp [List.countP_cons, h, ht]
    · have ih := nodup_countP_le_one num t hnd
      have : (a.number == num) = false := by simp [h]
      simp only [List.countP_cons, this, if_neg Bool.false_ne_true]
      omega

lemma dry_mutations_nil (ts : String) (i : Issue) (d : CloseDecision) :
    close_mutations true ts i d = [] := by
  cases d <;> rfl

lemma run_dry_stats (ts : String) (c : Finset String) :
    ∀ issues : List Issue,
      (close_run true ts c issues).1 = (close_run false ts c issues).1
  | [] => rfl
  | a :: t => by simp [close_run, run_dry_stats ts c t]

lemma run_dry_muts (ts : String) (c : Finset String) :
    ∀ issues : List Issue, (close_run true ts c issues).2 = []
  | [] => rfl
  | a :: t => by simp [close_run, run_dry_muts ts c t, dry_mutations_nil]

end CloseFixedIssues

namespace ReopenFixed

lemma rdecide_eq_reopened (c : Finset String) (i : Issue)
    (htitle : pyContains (pyLower i.title) "fix all dependabot issues" = true)
    (hinter : extract_vulnerability_ids_from_issue i.body ∩ c ≠ ∅) :
    reopen_decide c i = .reopened (extract_vulnerability_ids_from_issue i.body ∩ c).card := by
  have hne : extract_vulnerability_ids_from_issue i.body ≠ ∅ := by
    intro h
    exact hinter (by rw [h, Finset.empty_inter])
  simp [reopen_decide, htitle, hne, hinter]

lemma rrun_mem (dry : Bool) (oracle : Nat → Bool) (ts : String) (c : Finset String)
    (m : Mutation) :
    ∀ issues : List Issue,
      m ∈ (reopen_run dry oracle ts c issues).2 ↔
        ∃ i, i ∈ issues ∧ m ∈ reopen_mutations dry ts i (reopen_decide c i)
  | [] => by simp [reopen_run]
  | a :: t => by
    simp only [reopen_run, List.mem_append, rrun_mem dry oracle ts c m t, List.mem_cons]
    constructor
    · rintro (h | ⟨i, hi, hm⟩)
      · exact ⟨a, Or.inl rfl, h⟩
      · exact ⟨i, Or.inr hi, hm⟩
    · rintro ⟨i, (rfl | hi), hm⟩
      · exact Or.inl hm
      · exact Or.inr ⟨i, hi, hm⟩

lemma rdry_mutations_nil (ts : String) (i : Issue) (d : ReopenDecision) :
    reopen_mutations true ts i d = [] := by
  cases d <;> rfl

lemma rdelta_components (oracle : Nat → Bool) (i : Issue) (d : ReopenDecision) :
    (reopenStatsDelta true oracle i d).checked = (reopenStatsDelta false oracle i d).checked
    ∧ (reopenStatsDelta true oracle i d).reopened = (reopenStatsDelta false oracle i d).reopened
    ∧ (reopenStatsDelta true oracle i d).skipped = (reopenStatsDelta false oracle i d).skipped
    ∧ (reopenStatsDelta true oracle i d).errors = (reopenStatsDelta false oracle i d).errors := by
  cases d <;> simp [reopenStatsDelta]

lemma rrun_dry_stats (oracle : Nat → Bool) (ts : String) (c : Finset String) :
    ∀ issues : List Issue,
      (reopen_run true oracle ts c issues).1.checked
          = (reopen_run false oracle ts c issues).1.checked
      ∧ (reopen_run true oracle ts c issues).1.reopened
          = (reopen_run false oracle ts c issues).1.reopened
      ∧ (reopen_run true oracle ts c issues).1.skipped
          = (reopen_run false oracle ts c issues).1.skipped
      ∧ (reopen_run true oracle ts c issues).1.errors
          = (reopen_run false oracle ts c issues).1.errors
  | [] => by simp [reopen_run]
  | a :: t => by
    obtain ⟨h1, h2, h3, h4⟩ := rrun_dry_stats oracle ts c t
    obtain ⟨d1, d2, d3, d4⟩ := rdelta_components oracle a (reopen_decide c a)
    simp only [reopen_run, reopenStatsAdd]
    exact ⟨by simp [d1, h1], by simp [d2, h2], by simp [d3, h3], by simp [d4, h4]⟩

lemma rrun_dry_muts (oracle : Nat → Bool) (ts : String) (c : Finset String) :
    ∀ issues : List Issue, (reopen_run true oracle ts c issues).2 = []
  | [] => rfl
  | a :: t => by
    simp [reopen_run, rrun_dry_muts oracle ts c t, rdry_mutations_nil]

end ReopenFixed

/-! ### String-splitting lemmas

These support reasoning about the identity a table row yields under the
issue-body extractors, for arbitrary cell contents (in particular for
cells that differ only in surrounding whitespace). -/

lemma data_append (a b : String) : (a ++ b).data = a.data ++ b.data := rfl

lemma data_bar : ("|" : String).data = ['|'] := rfl

lemma mk_data (s : String) : String.mk s.data = s := rfl

lemma pyStrip_empty : pyStrip "" = "" := rfl

lemma splitCharGo_not_mem (sep : Char) :
    ∀ (l acc : List Char), (∀ ch ∈ l, (ch == sep) = false) →
      splitCharGo sep l acc = [acc.reverse ++ l]
  | [], acc => by
    intro _
    simp [splitCharGo]
  | c :: l, acc => by
    intro h
    have hc : (c == sep) = false := h c (List.mem_cons_self c l)
    have ih := splitCharGo_not_mem sep l (c :: acc)
      (fun ch hch => h ch (List.mem_cons_of_mem c hch))
    simp only [splitCharGo, hc, Bool.false_eq_true, if_false, ih, List.reverse_cons]
    simp

lemma splitCharGo_sep (sep : Char) :
    ∀ (l1 l2 acc : List Char), (∀ ch ∈ l1, (ch == sep) = false) →
      splitCharGo sep (l1 ++ sep :: l2) acc
        = (acc.reverse ++ l1) :: splitCharGo sep l2 []
  | [], l2, acc => by
    intro _
    simp [splitCharGo]
  | c :: l1, l2, acc => by
    intro h
    have hc : (c == sep) = false := h c (List.mem_cons_self c l1)
    have ih := splitCharGo_sep sep l1 l2 (c :: acc)
      (fun ch hch => h ch (List.mem_cons_of_mem c hch))
    simp only [List.cons_append, splitCharGo, hc, Bool.false_eq_true, if_false,
      List.append_eq]
    rw [ih]
    simp

lemma dropWhile_append_last {p : Char → Bool} (a : Char) (ha : p a = false) :
    ∀ l : List Char, List.dropWhile p (l ++ [a]) = List.dropWhile p l ++ [a]
  | [] => by simp [List.dropWhile_cons, ha]
  | c :: l => by
    by_cases hc : p c = true
    · simp [List.dropWhile_cons, hc, dropWhile_append_last a ha l]
    · simp [List.dropWhile_cons, hc]

/-- Stripping a string that begins with a pipe keeps the pipe in front. -/
lemma pyStrip_bar_cons (rest : List Char) :
    pyStrip (String.mk ('|' :: rest))
      = String.mk ('|' :: (rest.reverse.dropWhile Char.isWhitespace).reverse) := by
  have hbar : ('|' : Char).isWhitespace = false := by decide
  simp [pyStrip, List.dropWhile_cons, hbar, dropWhile_append_last ('|' : Char) hbar]


/-- Splitting a three-cell table row on the pipe character recovers the
cells (given pipe-free cells), as `line.split('|')` does in Python. -/
lemma pySplit_row3 (c1 c2 c3 : String)
    (h1 : ∀ ch ∈ c1.data, (ch == '|') = false)
    (h2 : ∀ ch ∈ c2.data, (ch == '|') = false)
    (h3 : ∀ ch ∈ c3.data, (ch == '|') = false) :
    pySplit ("|" ++ c1 ++ "|" ++ c2 ++ "|" ++ c3 ++ "|") '|' = ["", c1, c2, c3, ""] := by
  have hdata : ("|" ++ c1 ++ "|" ++ c2 ++ "|" ++ c3 ++ "|").data
      = '|' :: (c1.data ++ '|' :: (c2.data ++ '|' :: (c3.data ++ '|' :: []))) := by
    simp [data_append, data_bar]
  rw [pySplit, hdata]
  have hstep0 :
      splitCharGo '|'
          ('|' :: (c1.data ++ '|' :: (c2.data ++ '|' :: (c3.data ++ '|' :: [])))) []
        = [] :: splitCharGo '|' (c1.data ++ '|' :: (c2.data ++ '|' :: (c3.data ++ '|' :: []))) [] := by
    simp [splitCharGo]
  rw [hstep0, splitCharGo_sep '|' c1.data _ [] h1, splitCharGo_sep '|' c2.data _ [] h2,
    splitCharGo_sep '|' c3.data [] [] h3]
  simp [splitCharGo, mk_data]

/-- Splitting a two-cell table row on the pipe character recovers the
cells (given pipe-free cells). -/
lemma pySplit_row2 (c1 c2 : String)
    (h1 : ∀ ch ∈ c1.data, (ch == '|') = false)
    (h2 : ∀ ch ∈ c2.data, (ch == '|') = false) :
    pySplit ("|" ++ c1 ++ "|" ++ c2 ++ "|") '|' = ["", c1, c2, ""] := by
  have hdata : ("|" ++ c1 ++ "|" ++ c2 ++ "|").data
      = '|' :: (c1.data ++ '|' :: (c2.data ++ '|' :: [])) := by
    simp [data_append, data_bar]
  rw [pySplit, hdata]
  have hstep0 :
      splitCharGo '|' ('|' :: (c1.data ++ '|' :: (c2.data ++ '|' :: []))) []
        = [] :: splitCharGo '|' (c1.data ++ '|' :: (c2.data ++ '|' :: [])) [] := by
    simp [splitCharGo]
  rw [hstep0, splitCharGo_sep '|' c1.data _ [] h1, splitCharGo_sep '|' c2.data [] [] h2]
  simp [splitCharGo, mk_data]

open CloseFixedIssues in
/-- The close-path extractor on a one-row table body: the identity it
recovers from the row is built from the whitespace-stripped first and
third cells (no case normalization), for arbitrary pipe- and newline-free
cell contents whose row does not itself look like a table header. -/
lemma close_extract_row (c1 c2 c3 : String)
    (hcell : ∀ ch ∈ c1.data ++ c2.data ++ c3.data, (ch == '|') = false ∧ (ch == '\n') = false)
    (hhdr : (pyContains ("|" ++ c1 ++ "|" ++ c2 ++ "|" ++ c3 ++ "|") "Package"
        || pyContains ("|" ++ c1 ++ "|" ++ c2 ++ "|" ++ c3 ++ "|") "package") = false) :
    extract_vulnerability_ids_from_issue
        ("| Package | Version | Severity |\n" ++ ("|" ++ c1 ++ "|" ++ c2 ++ "|" ++ c3 ++ "|"))
      = (if pyStrip c1 != "" && pyStrip c3 != "" &&
            !(["Package", "package", "-", "--"].contains (pyStrip c1))
         then insert (pyStrip c1 ++ "|" ++ pyStrip c3) (∅ : Finset String) else ∅) := by
  have h1 : ∀ ch ∈ c1.data, (ch == '|') = false :=
    fun ch hch => (hcell ch (by simp [hch])).1
  have h2 : ∀ ch ∈ c2.data, (ch == '|') = false :=
    fun ch hch => (hcell ch (by simp [hch])).1
  have h3 : ∀ ch ∈ c3.data, (ch == '|') = false :=
    fun ch hch => (hcell ch (by simp [hch])).1
  have hrowdata : ("|" ++ c1 ++ "|" ++ c2 ++ "|" ++ c3 ++ "|").data
      = '|' :: (c1.data ++ '|' :: (c2.data ++ '|' :: (c3.data ++ '|' :: []))) := by
    simp [data_append, data_bar]
  have hrownl : ∀ ch ∈ ("|" ++ c1 ++ "|" ++ c2 ++ "|" ++ c3 ++ "|").data,
      (ch == '\n') = false := by
    rw [hrowdata]
    intro ch hch
    simp only [List.mem_cons, List.mem_append] at hch
    rcases hch with rfl | h | h
    · decide
    · exact (hcell ch (by simp [h])).2
    rcases h with rfl | h | h
    · decide
    · exact (hcell ch (by simp [h])).2
    rcases h with rfl | h | h
    · decide
    · exact (hcell ch (by simp [h])).2
    rcases h with rfl | h
    · decide
    · simp at h
  have hbodysplit :
      pySplit ("| Package | Version | Severity |\n"
          ++ ("|" ++ c1 ++ "|" ++ c2 ++ "|" ++ c3 ++ "|")) '\n'
        = ["| Package | Version | Severity |", "|" ++ c1 ++ "|" ++ c2 ++ "|" ++ c3 ++ "|"] := by
    rw [pySplit]
    have hbd : ("| Package | Version | Severity |\n"
          ++ ("|" ++ c1 ++ "|" ++ c2 ++ "|" ++ c3 ++ "|")).data
        = ("| Package | Version | Severity |").data
            ++ '\n' :: ("|" ++ c1 ++ "|" ++ c2 ++ "|" ++ c3 ++ "|").data := by
      rw [data_append]
      rw [show ("| Package | Version | Severity |\n").data
          = ("| Package | Version | Severity |").data ++ ['\n'] from rfl]
      simp
    rw [hbd, splitCharGo_sep '\n' ("| Package | Version | Severity |").data _ [] (by decide),
      splitCharGo_not_mem '\n' _ [] hrownl]
    simp only [List.reverse_nil, List.nil_append, List.map_cons, List.map_nil, mk_data]
  have hbar_row : pyContains ("|" ++ c1 ++ "|" ++ c2 ++ "|" ++ c3 ++ "|") "|" = true := by
    simp only [pyContains, hrowdata, data_bar]
    simp [charContainsSub, charIsPrefix]
  rw [extract_vulnerability_ids_from_issue, hbodysplit]
  rw [show extractGo ["| Package | Version | Severity |",
        "|" ++ c1 ++ "|" ++ c2 ++ "|" ++ c3 ++ "|"] false ∅
      = extractGo ["|" ++ c1 ++ "|" ++ c2 ++ "|" ++ c3 ++ "|"] true ∅ from rfl]
  simp only [extractGo, hhdr, Bool.and_false, Bool.false_eq_true, if_false, hbar_row,
    Bool.and_self, if_true, pySplit_row3 c1 c2 c3 h1 h2 h3, List.map_cons, List.map_nil,
    pyStrip_empty, List.length_cons, List.length_nil]
  norm_num [List.getD]

open ReopenFixed in
/-- The reopen-path extractor on a one-row table body: the identity it
recovers from the row is built from the whitespace-stripped first and
second cells (case preserved in the identity; only the skip guard
lowercases), for arbitrary pipe- and newline-free cells whose row neither
looks like a table header nor like a dash separator. -/
lemma reopen_extract_row (c1 c2 : String)
    (hcell : ∀ ch ∈ c1.data ++ c2.data, (ch == '|') = false ∧ (ch == '\n') = false)
    (hhdr : (pyContains ("|" ++ c1 ++ "|" ++ c2 ++ "|") "| Package |"
        || pyContains ("|" ++ c1 ++ "|" ++ c2 ++ "|") "| Component |") = false)
    (hsep : pyStartsWith (pyStrip ("|" ++ c1 ++ "|" ++ c2 ++ "|")) "|---" = false) :
    extract_vulnerability_ids_from_issue
        ("| Package | Severity |\n" ++ ("|" ++ c1 ++ "|" ++ c2 ++ "|"))
      = (if pyStrip c1 == ""
            || ["package", "component", ""].contains (pyLower (pyStrip c1))
         then (∅ : Finset String)
         else insert (pyStrip c1 ++ "|" ++ pyStrip c2) (∅ : Finset String)) := by
  have h1 : ∀ ch ∈ c1.data, (ch == '|') = false :=
    fun ch hch => (hcell ch (by simp [hch])).1
  have h2 : ∀ ch ∈ c2.data, (ch == '|') = false :=
    fun ch hch => (hcell ch (by simp [hch])).1
  have hrowdata : ("|" ++ c1 ++ "|" ++ c2 ++ "|").data
      = '|' :: (c1.data ++ '|' :: (c2.data ++ '|' :: [])) := by
    simp [data_append, data_bar]
  have hrownl : ∀ ch ∈ ("|" ++ c1 ++ "|" ++ c2 ++ "|").data, (ch == '\n') = false := by
    rw [hrowdata]
    intro ch hch
    simp only [List.mem_cons, List.mem_append] at hch
    rcases hch with rfl | h | h
    · decide
    · exact (hcell ch (by simp [h])).2
    rcases h with rfl | h | h
    · decide
    · exact (hcell ch (by simp [h])).2
    rcases h with rfl | h
    · decide
    · simp at h
  have hbodysplit :
      pySplit ("| Package | Severity |\n" ++ ("|" ++ c1 ++ "|" ++ c2 ++ "|")) '\n'
        = ["| Package | Severity |", "|" ++ c1 ++ "|" ++ c2 ++ "|"] := by
    rw [pySplit]
    have hbd : ("| Package | Severity |\n" ++ ("|" ++ c1 ++ "|" ++ c2 ++ "|")).data
        = ("| Package | Severity |").data ++ '\n' :: ("|" ++ c1 ++ "|" ++ c2 ++ "|").data := by
      rw [data_append]
      rw [show ("| Package | Severity |\n").data
          = ("| Package | Severity |").data ++ ['\n'] from rfl]
      simp
    rw [hbd, splitCharGo_sep '\n' ("| Package | Severity |").data _ [] (by decide),
      splitCharGo_not_mem '\n' _ [] hrownl]
    simp only [List.reverse_nil, List.nil_append, List.map_cons, List.map_nil, mk_data]
  have hstart : pyStartsWith (pyStrip ("|" ++ c1 ++ "|" ++ c2 ++ "|")) "|" = true := by
    rw [show ("|" ++ c1 ++ "|" ++ c2 ++ "|")
        = String.mk ('|' :: (c1.data ++ '|' :: (c2.data ++ '|' :: []))) from by
      rw [← mk_data ("|" ++ c1 ++ "|" ++ c2 ++ "|"), hrowdata]]
    rw [pyStrip_bar_cons]
    simp [pyStartsWith, charIsPrefix]
  rw [extract_vulnerability_ids_from_issue, hbodysplit]
  rw [show extractGo ["| Package | Severity |", "|" ++ c1 ++ "|" ++ c2 ++ "|"] false ∅
      = extractGo ["|" ++ c1 ++ "|" ++ c2 ++ "|"] true ∅ from rfl]
  simp only [extractGo, hhdr, Bool.false_eq_true, if_false, Bool.true_and, hsep, hstart,
    if_true, pySplit_row2 c1 c2 h1 h2, List.map_cons, List.map_nil, pyStrip_empty,
    List.length_cons, List.length_nil]
  norm_num [List.getD]

/-! ### The claims -/

/-- C2: the claim asserts that parsing the body produced by
`format_issue_body` with `IssueCloser.extract_vulnerability_ids_from_issue`
recovers exactly the `package|SEVERITY` identities of the findings. It does
not: the table columns of the body are `Package | Severity | CVSS | ...`, while
the extractor reads `parts[3]` (the CVSS column) as the severity and also
admits the `|---------|...` separator row, whose dash runs are not in the
excluded-package list. For a single HIGH finding of `pkgA` with CVSS 9.8
the round trip yields `pkgA|9.8` plus the artifact `---------|------`, and
not `pkgA|HIGH`. The mismatch is localised in the close-path extractor:
the reopen-path extractor recovers exactly `pkgA|HIGH` from the very same
body, and the aggregator identity of the finding is `pkgA|HIGH`. As a
consequence the claimed set never intersects the current set, and the
close engine decides Close (count 2) for the tracking issue of a finding
that is still open. -/
theorem spec_c2 :
    CloseFixedIssues.extract_vulnerability_ids_from_issue c2body
        = {"---------|------", "pkgA|9.8"}
    ∧ "pkgA|HIGH" ∉ CloseFixedIssues.extract_vulnerability_ids_from_issue c2body
    ∧ ReopenFixed.extract_vulnerability_ids_from_issue c2body = {"pkgA|HIGH"}
    ∧ CloseFixedIssues.get_current_vulnerabilities
        [[("Repository", "repoA"), ("Package", "pkgA"), ("Severity", "HIGH"),
          ("Status", "open")]] "repoA"
        = {"pkgA|HIGH"}
    ∧ CloseFixedIssues.close_decide {"pkgA|HIGH"}
        ⟨11, "repoA - Fix all dependabot issues Critical - 00, High - 01, Medium - 00, Low - 00",
         c2body⟩
        = .closed 2 := by
  decide

/-- C3: the claim asserts that both header conventions are accepted by
every entry point. They are not: the aggregator of `close_fixed_issues.py`
reads only `Repository`/`Package` and the one of `reopen_fixed.py` reads
only `Repository Name`/`Component`, so the same open finding is visible to
exactly one of the two and each entry point observes zero open findings
under the other convention. -/
theorem spec_c3 :
    CloseFixedIssues.get_current_vulnerabilities [c3rowReopenHeaders] "alpha" = ∅
    ∧ ReopenFixed.get_current_vulnerabilities [c3rowReopenHeaders] "alpha" = {"pkgA|HIGH"}
    ∧ CloseFixedIssues.get_current_vulnerabilities [c3rowCloseHeaders] "alpha" = {"pkgA|HIGH"}
    ∧ ReopenFixed.get_current_vulnerabilities [c3rowCloseHeaders] "alpha" = ∅ := by
  decide

/-- C6: `format_issue_title` assembles the documented title string in its
local variable `title` — for repository `alpha` with counts (3,0,0,0) that
local holds exactly the claimed string — but the function body has no
`return` statement, so the call itself evaluates to `None` rather than the
claimed string. -/
theorem spec_c6 :
    GitHubIssueManager.format_issue_title "alpha" ⟨3, 0, 0, 0, 3⟩ = none
    ∧ GitHubIssueManager.format_issue_title_local "alpha" ⟨3, 0, 0, 0, 3⟩
        = "alpha - Fix all dependabot issues Critical - 03, High - 00, Medium - 00, Low - 00" := by
  decide

/-- C10: in `create_vulnerability_issue`, when no existing issue is found
the new-issue branch evaluates the unbound name `labels` while building
the `repo.create_issue` arguments, raising `NameError` before any issue is
created; the handler counts one error and the function returns `False`
with no mutation performed. -/
theorem spec_c10 (repository_name : String)
    (severity_counts : GitHubIssueManager.SeverityCounts)
    (vulnerability_data : List GitHubIssueManager.VulnRecord) :
    GitHubIssueManager.create_vulnerability_issue repository_name severity_counts
        vulnerability_data none
      = ⟨false, 0, 0, 1, []⟩
    ∧ GitHubIssueManager.new_issue_scope.contains "labels" = false
    ∧ GitHubIssueManager.evalName GitHubIssueManager.new_issue_scope "labels"
        = .error (.nameError "labels") :=
  ⟨rfl, by decide, rfl⟩

/-- C7 counterexample: an open issue that carries the canonical label and
whose title contains the repository name — the predicate the claim
describes — does not stop creation: the matcher in the code additionally
requires a keyword in the title, so with title `alpha misc` the check
misses it and the engine still decides `Create` without force-update. -/
theorem spec_c7_cex :
    pyContains c7issueNoKeyword.title "alpha" = true
    ∧ c7issueNoKeyword.labels.contains "security-Vulnerability" = true
    ∧ CreateSecurityIssues.create_decision false "alpha" [c7issueNoKeyword] 3
        = .created := by
  decide

/-- C7 (amended): before a Create the engine queries open issues with the
canonical `security-Vulnerability` label and a predicate requiring the
repository name in the title AND one of the keywords `dependabot`,
`fix all`, `vulnerability`, `security` in the lowercased title; when such
an issue exists and force-update is not requested, the decision is the
skip action and never Create. Engine-generated tracking titles contain
`dependabot`, so repeated Create attempts for one repository are skipped. -/
theorem spec_c7 (repository_name : String) (open_issues : List CreateSecurityIssues.GHIssue)
    (total : Nat) (issue : CreateSecurityIssues.GHIssue)
    (hmem : issue ∈ open_issues)
    (hlabel : issue.labels.contains "security-Vulnerability" = true)
    (htitle : CreateSecurityIssues.titleMatches repository_name issue = true) :
    CreateSecurityIssues.create_decision false repository_name open_issues total
        = .skippedExisting
    ∧ CreateSecurityIssues.create_decision false repository_name open_issues total
        ≠ .created := by
  have hfind :
      CreateSecurityIssues.check_existing_vulnerability_issue repository_name open_issues
        ≠ none := by
    intro hnone
    rw [CreateSecurityIssues.check_existing_vulnerability_issue, List.find?_eq_none] at hnone
    exact hnone issue (List.mem_filter.mpr ⟨hmem, hlabel⟩) htitle
  rcases hsome :
      CreateSecurityIssues.check_existing_vulnerability_issue repository_name open_issues with
    _ | found
  · exact absurd hsome hfind
  · refine ⟨?_, ?_⟩ <;>
      simp [CreateSecurityIssues.create_decision, hsome]

/-- C7 witness: for the engine-generated tracking issue of repository
`alpha`, the amended duplicate-prevention theorem applies and yields the
skip decision. -/
theorem spec_c7_witness :
    (c7issueTracking ∈ [c7issueTracking]
     ∧ c7issueTracking.labels.contains "security-Vulnerability" = true
     ∧ CreateSecurityIssues.titleMatches "alpha" c7issueTracking = true)
    ∧ CreateSecurityIssues.create_decision false "alpha" [c7issueTracking] 2
        = .skippedExisting :=
  ⟨⟨by decide, by decide, by decide⟩,
   (spec_c7 "alpha" [c7issueTracking] 2 c7issueTracking (by decide) (by decide)
      (by decide)).1⟩

/-- C9 counterexample: vulnerability identities are not case-normalized.
Two open rows of the same repository whose package names differ only in
letter case (`Lodash` vs `lodash`) produce different identities and two
distinct members of the finding set, where the claim requires one. -/
theorem spec_c9_cex :
    CloseFixedIssues.vuln_id c9rowUpper ≠ CloseFixedIssues.vuln_id c9rowLower
    ∧ (CloseFixedIssues.get_current_vulnerabilities [c9rowUpper, c9rowLower] "repoA").card
        = 2 := by
  decide

/-- C9 (amended): vulnerability identities are built from the package and
severity after whitespace-trimming only, on both the raw-finding side and
the parsed-issue-body side, and letter case is preserved (see the
counterexample). For CSV finding rows, both aggregators produce equal
identities for fields that agree after stripping. For issue-body table
rows, both extractors recover the identity built from the stripped cells
(the close extractor pairs stripped cell 1 with stripped cell 3, the
reopen extractor stripped cell 1 with stripped cell 2), so two rows whose
cells differ only in surrounding whitespace parse to the same claimed
set. -/
theorem spec_c9 (repo st p q s t : String)
    (hp : pyStrip p = pyStrip q) (hs : pyStrip s = pyStrip t)
    (c1 c2 c3 d1 d2 d3 : String)
    (hcellc : ∀ ch ∈ c1.data ++ c2.data ++ c3.data,
      (ch == '|') = false ∧ (ch == '\n') = false)
    (hcelld : ∀ ch ∈ d1.data ++ d2.data ++ d3.data,
      (ch == '|') = false ∧ (ch == '\n') = false)
    (hhdrc : (pyContains ("|" ++ c1 ++ "|" ++ c2 ++ "|" ++ c3 ++ "|") "Package"
        || pyContains ("|" ++ c1 ++ "|" ++ c2 ++ "|" ++ c3 ++ "|") "package") = false)
    (hhdrd : (pyContains ("|" ++ d1 ++ "|" ++ d2 ++ "|" ++ d3 ++ "|") "Package"
        || pyContains ("|" ++ d1 ++ "|" ++ d2 ++ "|" ++ d3 ++ "|") "package") = false)
    (hhdrrc : (pyContains ("|" ++ c1 ++ "|" ++ c3 ++ "|") "| Package |"
        || pyContains ("|" ++ c1 ++ "|" ++ c3 ++ "|") "| Component |") = false)
    (hhdrrd : (pyContains ("|" ++ d1 ++ "|" ++ d3 ++ "|") "| Package |"
        || pyContains ("|" ++ d1 ++ "|" ++ d3 ++ "|") "| Component |") = false)
    (hsepc : pyStartsWith (pyStrip ("|" ++ c1 ++ "|" ++ c3 ++ "|")) "|---" = false)
    (hsepd : pyStartsWith (pyStrip ("|" ++ d1 ++ "|" ++ d3 ++ "|")) "|---" = false)
    (h1 : pyStrip c1 = pyStrip d1) (h3 : pyStrip c3 = pyStrip d3) :
    CloseFixedIssues.vuln_id
        [("Repository", repo), ("Package", p), ("Severity", s), ("Status", st)]
      = CloseFixedIssues.vuln_id
        [("Repository", repo), ("Package", q), ("Severity", t), ("Status", st)]
    ∧ ReopenFixed.vuln_id
        [("Repository Name", repo), ("Component", p), ("Severity", s), ("Status", st)]
      = ReopenFixed.vuln_id
        [("Repository Name", repo), ("Component", q), ("Severity", t), ("Status", st)]
    ∧ CloseFixedIssues.extract_vulnerability_ids_from_issue
        ("| Package | Version | Severity |\n" ++ ("|" ++ c1 ++ "|" ++ c2 ++ "|" ++ c3 ++ "|"))
      = (if pyStrip c1 != "" && pyStrip c3 != "" &&
            !(["Package", "package", "-", "--"].contains (pyStrip c1))
         then insert (pyStrip c1 ++ "|" ++ pyStrip c3) (∅ : Finset String) else ∅)
    ∧ CloseFixedIssues.extract_vulnerability_ids_from_issue
        ("| Package | Version | Severity |\n" ++ ("|" ++ c1 ++ "|" ++ c2 ++ "|" ++ c3 ++ "|"))
      = CloseFixedIssues.extract_vulnerability_ids_from_issue
        ("| Package | Version | Severity |\n" ++ ("|" ++ d1 ++ "|" ++ d2 ++ "|" ++ d3 ++ "|"))
    ∧ ReopenFixed.extract_vulnerability_ids_from_issue
        ("| Package | Severity |\n" ++ ("|" ++ c1 ++ "|" ++ c3 ++ "|"))
      = (if pyStrip c1 == ""
            || ["package", "component", ""].contains (pyLower (pyStrip c1))
         then (∅ : Finset String)
         else insert (pyStrip c1 ++ "|" ++ pyStrip c3) (∅ : Finset String))
    ∧ ReopenFixed.extract_vulnerability_ids_from_issue
        ("| Package | Severity |\n" ++ ("|" ++ c1 ++ "|" ++ c3 ++ "|"))
      = ReopenFixed.extract_vulnerability_ids_from_issue
        ("| Package | Severity |\n" ++ ("|" ++ d1 ++ "|" ++ d3 ++ "|")) := by
  have hcellrc : ∀ ch ∈ c1.data ++ c3.data, (ch == '|') = false ∧ (ch == '\n') = false := by
    intro ch hch
    rcases List.mem_append.mp hch with h | h
    · exact hcellc ch (by simp [h])
    · exact hcellc ch (by simp [h])
  have hcellrd : ∀ ch ∈ d1.data ++ d3.data, (ch == '|') = false ∧ (ch == '\n') = false := by
    intro ch hch
    rcases List.mem_append.mp hch with h | h
    · exact hcelld ch (by simp [h])
    · exact hcelld ch (by simp [h])
  refine ⟨?_, ?_, ?_, ?_, ?_, ?_⟩
  · show pyStrip p ++ "|" ++ pyStrip s = pyStrip q ++ "|" ++ pyStrip t
    rw [hp, hs]
  · show pyStrip p ++ "|" ++ pyStrip s = pyStrip q ++ "|" ++ pyStrip t
    rw [hp, hs]
  · exact close_extract_row c1 c2 c3 hcellc hhdrc
  · rw [close_extract_row c1 c2 c3 hcellc hhdrc, close_extract_row d1 d2 d3 hcelld hhdrd,
      h1, h3]
  · exact reopen_extract_row c1 c3 hcellrc hhdrrc hsepc
  · rw [reopen_extract_row c1 c3 hcellrc hhdrrc hsepc,
      reopen_extract_row d1 d3 hcellrd hhdrrd hsepd, h1, h3]

/-- C9 witness: a CSV record and an issue-body table row whose package and
severity differ only in surrounding whitespace give equal identities under
the aggregators and parse to the same claimed set under the close-path
extractor — concretely `pkgA|HIGH`, with trimming applied and case
preserved. -/
theorem spec_c9_witness :
    (pyStrip " pkgA " = pyStrip "  pkgA" ∧ pyStrip " HIGH" = pyStrip "HIGH ")
    ∧ CloseFixedIssues.extract_vulnerability_ids_from_issue
        ("| Package | Version | Severity |\n"
          ++ ("|" ++ " pkgA " ++ "|" ++ "1.0" ++ "|" ++ " HIGH" ++ "|"))
      = CloseFixedIssues.extract_vulnerability_ids_from_issue
        ("| Package | Version | Severity |\n"
          ++ ("|" ++ "  pkgA" ++ "|" ++ " 1.0 " ++ "|" ++ "HIGH " ++ "|"))
    ∧ CloseFixedIssues.extract_vulnerability_ids_from_issue
        ("| Package | Version | Severity |\n"
          ++ ("|" ++ " pkgA " ++ "|" ++ "1.0" ++ "|" ++ " HIGH" ++ "|"))
      = {"pkgA|HIGH"} :=
  ⟨⟨by decide, by decide⟩,
   (spec_c9 "repoA" "open" " pkgA " "  pkgA" " HIGH" "HIGH " (by decide) (by decide)
      " pkgA " "1.0" " HIGH" "  pkgA" " 1.0 " "HIGH " (by decide) (by decide) (by decide)
      (by decide) (by decide) (by decide) (by decide) (by decide) (by decide)
      (by decide)).2.2.2.1,
   by decide⟩

open CloseFixedIssues in
/-- C1: for an open tracking issue whose body parses to a non-empty claimed
set, a live run closes the issue (performs `edit(state="closed")`) iff the
claimed set has empty intersection with the current finding set of the repository; it closes it at most once per run (issue numbers being distinct); and
when it closes, the posted comment is `closing_comment |claimed| ts`, a
string that states `Fixed vulnerabilities: |claimed|`. -/
theorem spec_c1 (timestamp : String) (current_vulns : Finset String)
    (open_issues : List Issue) (issue : Issue)
    (hmem : issue ∈ open_issues)
    (hnodup : (open_issues.map Issue.number).Nodup)
    (hclaim : extract_vulnerability_ids_from_issue issue.body ≠ ∅) :
    (Mutation.editState issue.number "closed"
        ∈ (close_run false timestamp current_vulns open_issues).2
      ↔ extract_vulnerability_ids_from_issue issue.body ∩ current_vulns = ∅)
    ∧ (close_run false timestamp current_vulns open_issues).2.countP
        (fun m => m == Mutation.editState issue.number "closed") ≤ 1
    ∧ (extract_vulnerability_ids_from_issue issue.body ∩ current_vulns = ∅ →
        Mutation.createComment issue.number
            (closing_comment (extract_vulnerability_ids_from_issue issue.body).card timestamp)
          ∈ (close_run false timestamp current_vulns open_issues).2
        ∧ ∃ pre post,
            closing_comment (extract_vulnerability_ids_from_issue issue.body).card timestamp
              = pre ++ (("Fixed vulnerabilities: " ++
                  toString (extract_vulnerability_ids_from_issue issue.body).card) ++ post)) := by
  refine ⟨⟨?_, ?_⟩, ?_, ?_⟩
  · intro hin
    rw [run_mem] at hin
    obtain ⟨i, hi, hm⟩ := hin
    rcases hd : close_decide current_vulns i with _ | n | k
    · rw [hd] at hm
      simp [close_mutations] at hm
    · rw [hd] at hm
      simp only [close_mutations, Bool.false_eq_true, if_false, List.mem_cons,
        List.mem_singleton, List.not_mem_nil, or_false, Mutation.editState.injEq,
        reduceCtorEq, false_or] at hm
      have heq : i = issue := List.inj_on_of_nodup_map hnodup hi hmem hm.1.symm
      subst heq
      exact ((decide_closed_iff current_vulns i n).mp hd).2.1
    · rw [hd] at hm
      simp [close_mutations] at hm
  · intro hint
    have hd : close_decide current_vulns issue
        = .closed (extract_vulnerability_ids_from_issue issue.body).card :=
      (decide_closed_iff current_vulns issue _).mpr ⟨hclaim, hint, rfl⟩
    rw [run_mem]
    refine ⟨issue, hmem, ?_⟩
    rw [hd]
    simp [close_mutations]
  · exact le_trans (run_count_le timestamp current_vulns issue.number open_issues)
      (nodup_countP_le_one issue.number open_issues hnodup)
  · intro hint
    have hd : close_decide current_vulns issue
        = .closed (extract_vulnerability_ids_from_issue issue.body).card :=
      (decide_closed_iff current_vulns issue _).mpr ⟨hclaim, hint, rfl⟩
    refine ⟨?_, ?_⟩
    · rw [run_mem]
      refine ⟨issue, hmem, ?_⟩
      rw [hd]
      simp [close_mutations]
    · exact
        ⟨"🎉 **All vulnerabilities mentioned in this issue have been resolved!**\n\n✅ ",
         "\n📅 Verified on: " ++
           (timestamp ++
             "\n\nThis issue is being automatically closed as all security vulnerabilities have been addressed. If you believe this was closed in error, please reopen it."),
         rfl⟩

open CloseFixedIssues in
/-- C1 witness: scenario B — repo `beta`, an open issue claiming
`{pkgX|HIGH, pkgY|LOW}` (a two-element claimed set), current findings
empty; the closure theorem applies and the issue is closed. -/
theorem spec_c1_witness :
    (c1issue ∈ [c1issue]
     ∧ ([c1issue].map Issue.number).Nodup
     ∧ extract_vulnerability_ids_from_issue c1issue.body ≠ ∅)
    ∧ (extract_vulnerability_ids_from_issue c1issue.body).card = 2
    ∧ (Mutation.editState c1issue.number "closed"
          ∈ (close_run false "2025-11-08 10:10:04" ∅ [c1issue]).2
        ↔ extract_vulnerability_ids_from_issue c1issue.body ∩ ∅ = ∅) :=
  ⟨⟨by decide, by decide, by decide⟩, by decide,
   (spec_c1 "2025-11-08 10:10:04" ∅ [c1issue] c1issue (by decide) (by decide)
      (by decide)).1⟩

/-- C4: an issue whose body the extractors cannot parse into a non-empty
claimed set triggers no state change in either engine, whatever the
current finding set: the close path decides skip with no mutation, the
reopen path decides a skip (not-automated or unparsed) with no mutation. -/
theorem spec_c4 (current_vulns : Finset String) (timestamp : String) (dry_run : Bool)
    (issue : Issue)
    (hclose : CloseFixedIssues.extract_vulnerability_ids_from_issue issue.body = ∅)
    (hreopen : ReopenFixed.extract_vulnerability_ids_from_issue issue.body = ∅) :
    CloseFixedIssues.close_decide current_vulns issue = .skippedUnparsed
    ∧ CloseFixedIssues.close_mutations dry_run timestamp issue
        (CloseFixedIssues.close_decide current_vulns issue) = []
    ∧ (ReopenFixed.reopen_decide current_vulns issue = .skippedNotAutomated
        ∨ ReopenFixed.reopen_decide current_vulns issue = .skippedUnparsed)
    ∧ ReopenFixed.reopen_mutations dry_run timestamp issue
        (ReopenFixed.reopen_decide current_vulns issue) = [] := by
  have h1 : CloseFixedIssues.close_decide current_vulns issue = .skippedUnparsed := by
    simp [CloseFixedIssues.close_decide, hclose]
  have h2 : ReopenFixed.reopen_decide current_vulns issue = .skippedNotAutomated
      ∨ ReopenFixed.reopen_decide current_vulns issue = .skippedUnparsed := by
    by_cases ht : pyContains (pyLower issue.title) "fix all dependabot issues" = true
    · right
      simp [ReopenFixed.reopen_decide, ht, hreopen]
    · left
      have hf : pyContains (pyLower issue.title) "fix all dependabot issues" = false := by
        simpa using ht
      simp [ReopenFixed.reopen_decide, hf]
  refine ⟨h1, ?_, h2, ?_⟩
  · rw [h1]
    cases dry_run <;> rfl
  · rcases h2 with h | h <;> rw [h] <;> cases dry_run <;> rfl

/-- C4 witness: an issue body with no vulnerability table parses to the
empty set under both extractors, and the close decision is the skip. -/
theorem spec_c4_witness :
    (CloseFixedIssues.extract_vulnerability_ids_from_issue c4issue.body = ∅
     ∧ ReopenFixed.extract_vulnerability_ids_from_issue c4issue.body = ∅)
    ∧ CloseFixedIssues.close_decide {"pkgQ|HIGH"} c4issue = .skippedUnparsed :=
  ⟨⟨by decide, by decide⟩,
   (spec_c4 {"pkgQ|HIGH"} "2025-11-08 10:10:04" true c4issue (by decide) (by decide)).1⟩

open ReopenFixed in
/-- C5: for a closed tracking issue (automated title) whose parsed claimed
set intersects the current finding set of the repository, the decision is
Reopen with the size of the intersection; a live run performs the reopen edit
and posts `reopen_comment |claimed ∩ current| ts`, a string stating that
count of vulnerabilities still open. -/
theorem spec_c5 (timestamp : String) (oracle : Nat → Bool) (current_vulns : Finset String)
    (closed_issues : List Issue) (issue : Issue)
    (hmem : issue ∈ closed_issues)
    (htitle : pyContains (pyLower issue.title) "fix all dependabot issues" = true)
    (hinter : extract_vulnerability_ids_from_issue issue.body ∩ current_vulns ≠ ∅) :
    reopen_decide current_vulns issue
        = .reopened (extract_vulnerability_ids_from_issue issue.body ∩ current_vulns).card
    ∧ Mutation.editState issue.number "open"
        ∈ (reopen_run false oracle timestamp current_vulns closed_issues).2
    ∧ Mutation.createComment issue.number
        (reopen_comment
          (extract_vulnerability_ids_from_issue issue.body ∩ current_vulns).card timestamp)
        ∈ (reopen_run false oracle timestamp current_vulns closed_issues).2
    ∧ ∃ pre post,
        reopen_comment
            (extract_vulnerability_ids_from_issue issue.body ∩ current_vulns).card timestamp
          = pre ++
              ((toString (extract_vulnerability_ids_from_issue issue.body ∩ current_vulns).card
                  ++ " vulnerabilities are still open") ++ post) := by
  have hd := rdecide_eq_reopened current_vulns issue htitle hinter
  refine ⟨hd, ?_, ?_, ?_⟩
  · rw [rrun_mem]
    refine ⟨issue, hmem, ?_⟩
    rw [hd]
    simp [reopen_mutations]
  · rw [rrun_mem]
    refine ⟨issue, hmem, ?_⟩
    rw [hd]
    simp [reopen_mutations]
  · exact
      ⟨"## Issue Reopened - Automation Error\n\nThis issue was incorrectly closed due to a bug in the closure script.\n\n**Bug Details:**\nThe script was looking for wrong CSV column names (\x27Repository\x27/\x27Package\x27 instead of \x27Repository Name\x27/\x27Component\x27), causing it to never detect open vulnerabilities.\n\n**Current Status:**\n- **",
       "**\n- The bug has been fixed\n- This issue will remain open until all vulnerabilities are resolved\n- Project status updated back to \"In Progress\"\n\n---\n*Reopened by reopen_fixed.py on " ++
         (timestamp ++ "*\n"),
       rfl⟩

open ReopenFixed in
/-- C5 witness: scenario C — repo `gamma`, closed issue claiming
`{pkgZ|CRITICAL}`, current findings `{pkgZ|CRITICAL}`; the reopen theorem
applies and the decision is Reopen with still-open count 1. -/
theorem spec_c5_witness :
    (c5issue ∈ [c5issue]
     ∧ pyContains (pyLower c5issue.title) "fix all dependabot issues" = true
     ∧ extract_vulnerability_ids_from_issue c5issue.body ∩ {"pkgZ|CRITICAL"} ≠ ∅)
    ∧ reopen_decide {"pkgZ|CRITICAL"} c5issue
        = .reopened
            (extract_vulnerability_ids_from_issue c5issue.body ∩ {"pkgZ|CRITICAL"}).card :=
  ⟨⟨by decide, by decide, by decide⟩,
   (spec_c5 "2025-11-08 10:10:04" (fun _ => true) {"pkgZ|CRITICAL"} [c5issue] c5issue
      (by decide) (by decide) (by decide)).1⟩

/-- C8: a dry run computes exactly the same close/reopen decisions and
decision counters as a live run — the close-path statistics coincide, and
the reopen-path checked/reopened/skipped/errors counters coincide — while
performing zero mutating API calls. -/
theorem spec_c8 (timestamp : String) (oracle : Nat → Bool) (current_vulns : Finset String)
    (open_issues closed_issues : List Issue) :
    (CloseFixedIssues.close_run true timestamp current_vulns open_issues).1
        = (CloseFixedIssues.close_run false timestamp current_vulns open_issues).1
    ∧ (CloseFixedIssues.close_run true timestamp current_vulns open_issues).2 = []
    ∧ (ReopenFixed.reopen_run true oracle timestamp current_vulns closed_issues).1.checked
        = (ReopenFixed.reopen_run false oracle timestamp current_vulns closed_issues).1.checked
    ∧ (ReopenFixed.reopen_run true oracle timestamp current_vulns closed_issues).1.reopened
        = (ReopenFixed.reopen_run false oracle timestamp current_vulns closed_issues).1.reopened
    ∧ (ReopenFixed.reopen_run true oracle timestamp current_vulns closed_issues).1.skipped
        = (ReopenFixed.reopen_run false oracle timestamp current_vulns closed_issues).1.skipped
    ∧ (ReopenFixed.reopen_run true oracle timestamp current_vulns closed_issues).1.errors
        = (ReopenFixed.reopen_run false oracle timestamp current_vulns closed_issues).1.errors
    ∧ (ReopenFixed.reopen_run true oracle timestamp current_vulns closed_issues).2 = [] :=
  ⟨CloseFixedIssues.run_dry_stats timestamp current_vulns open_issues,
   CloseFixedIssues.run_dry_muts timestamp current_vulns open_issues,
   (ReopenFixed.rrun_dry_stats oracle timestamp current_vulns closed_issues).1,
   (ReopenFixed.rrun_dry_stats oracle timestamp current_vulns closed_issues).2.1,
   (ReopenFixed.rrun_dry_stats oracle timestamp current_vulns closed_issues).2.2.1,
   (ReopenFixed.rrun_dry_stats oracle timestamp current_vulns closed_issues).2.2.2,
   ReopenFixed.rrun_dry_muts oracle timestamp current_vulns closed_issues⟩
